import Mathlib

/-!
Shallow embedding of the task-list manager in
`src/src/components/TodoApp.tsx`.

The component keeps six pieces of state (`todos`, `newTodo`, `newPriority`,
`editingId`, `editText`, `filter`) and mutates them through the handlers
`addTodo`, `deleteTodo`, `startEdit`, `saveEdit`, `toggleComplete` and the
filter selector; the view derives `filteredTodos` from `todos` and `filter`.
Each handler is embedded as a pure function from the state (plus the clock
reading for `addTodo`, standing for `Date.now()` / `new Date()`) to the next
state together with the list of toast notifications it emits.
-/

namespace TodoApp

/-- The `priority` field of a task: the TS union type
`'high' | 'medium' | 'low'`. -/
inductive Priority
| high
| medium
| low
deriving DecidableEq

/-- The filter selector value: the TS union type
`'all' | 'high' | 'medium' | 'low'`. -/
inductive FilterVal
| all
| high
| medium
| low
deriving DecidableEq

/-- The `Todo` interface. `id` is the `Date.now()` reading at creation and
`createdAt` the `new Date()` reading, both modelled as natural numbers. -/
structure Todo where
  id : Nat
  text : String
  priority : Priority
  completed : Bool
  createdAt : Nat
deriving DecidableEq

/-- Toast severity: the default variant or `variant: "destructive"`. -/
inductive Variant
| normal
| destructive
deriving DecidableEq

/-- One call to `toast({title, description, variant})`. -/
structure Toast where
  title : String
  description : String
  variant : Variant
deriving DecidableEq

/-- The full component state: the six `useState` hooks of `TodoApp`. -/
structure TodoState where
  todos : List Todo
  newTodo : String
  newPriority : Priority
  editingId : Option Nat
  editText : String
  filter : FilterVal
deriving DecidableEq

/-- The JS string method `.trim()`: strip leading and trailing whitespace.
Written by structural recursion on the character list so that it evaluates
inside the kernel. -/
def jsTrim (s : String) : String :=
  String.mk (List.reverse (List.dropWhile Char.isWhitespace
    (List.reverse (List.dropWhile Char.isWhitespace s.data))))

/-- The initial state of the six hooks:
`[]`, `''`, `'medium'`, `null`, `''`, `'all'`. -/
def initState : TodoState :=
  { todos := []
    newTodo := ""
    newPriority := Priority.medium
    editingId := none
    editText := ""
    filter := FilterVal.all }

/-- `addTodo`: rejects a draft that is empty after trimming with a
destructive toast and no state change; otherwise prepends the new task
(with `id = Date.now()`, trimmed text, the selected priority,
`completed = false`, `createdAt` = the current time), resets the draft to
`''` and the priority selector to `'medium'`, and emits a success toast. -/
def addTodo (st : TodoState) (now : Nat) : TodoState × List Toast :=
  if jsTrim st.newTodo = "" then
    (st,
     [{ title := "Empty Task"
        description := "Please enter a task before adding."
        variant := Variant.destructive }])
  else
    let todo : Todo :=
      { id := now
        text := jsTrim st.newTodo
        priority := st.newPriority
        completed := false
        createdAt := now }
    ({ st with
        todos := todo :: st.todos
        newTodo := ""
        newPriority := Priority.medium },
     [{ title := "Task Added"
        description := "Your task has been added successfully!"
        variant := Variant.normal }])

/-- `deleteTodo`: `setTodos(todos.filter(todo => todo.id !== id))` plus a
success toast. -/
def deleteTodo (st : TodoState) (i : Nat) : TodoState × List Toast :=
  ({ st with todos := st.todos.filter (fun todo => todo.id != i) },
   [{ title := "Task Deleted"
      description := "Task removed successfully."
      variant := Variant.normal }])

/-- `startEdit`: `setEditingId(todo.id); setEditText(todo.text)`. -/
def startEdit (st : TodoState) (todo : Todo) : TodoState :=
  { st with editingId := some todo.id, editText := todo.text }

/-- The comparison `todo.id === editingId` where `editingId` is
`number | null`: strict equality with `null` is always false. -/
def editingMatches (eid : Option Nat) (i : Nat) : Bool :=
  match eid with
  | some e => i == e
  | none => false

/-- `saveEdit`: rejects an edit draft that is empty after trimming with a
destructive toast and no state change; otherwise maps over the list,
replacing the text of every task whose `id` equals `editingId` with the
trimmed draft, clears `editingId` and `editText`, and emits a success
toast. -/
def saveEdit (st : TodoState) : TodoState × List Toast :=
  if jsTrim st.editText = "" then
    (st,
     [{ title := "Empty Task"
        description := "Task cannot be empty."
        variant := Variant.destructive }])
  else
    ({ st with
        todos := st.todos.map (fun todo =>
          if editingMatches st.editingId todo.id then
            { todo with text := jsTrim st.editText }
          else todo)
        editingId := none
        editText := "" },
     [{ title := "Task Updated"
        description := "Your task has been updated successfully!"
        variant := Variant.normal }])

/-- `toggleComplete`: maps over the list flipping `completed` on the task
whose `id` matches; no validation, no toast. -/
def toggleComplete (st : TodoState) (i : Nat) : TodoState × List Toast :=
  ({ st with
      todos := st.todos.map (fun todo =>
        if todo.id == i then { todo with completed := !todo.completed }
        else todo) },
   [])

/-- The filter selector: `setFilter(value)`, pure UI state. -/
def setFilter (st : TodoState) (f : FilterVal) : TodoState :=
  { st with filter := f }

/-- The comparison `todo.priority === filter` between a priority string and
a filter string. -/
def prioEqFilter (p : Priority) (f : FilterVal) : Bool :=
  match p, f with
  | Priority.high, FilterVal.high => true
  | Priority.medium, FilterVal.medium => true
  | Priority.low, FilterVal.low => true
  | _, _ => false

/-- The view projection `filteredTodos`:
`todos.filter(todo => filter === 'all' ? true : todo.priority === filter)`
(written in the source as an early `return true` for `'all'`). -/
def filteredTodos (todos : List Todo) (f : FilterVal) : List Todo :=
  todos.filter (fun todo =>
    if f = FilterVal.all then true else prioEqFilter todo.priority f)

/-- The filter value that displays exactly the given priority. -/
def filterOfPriority : Priority → FilterVal
  | Priority.high => FilterVal.high
  | Priority.medium => FilterVal.medium
  | Priority.low => FilterVal.low

/-- One user-level operation on the component, carrying the data the UI
supplies: `add` carries the typed draft, the selected priority and the
clock reading; `saveEdit` carries the edit-box content at save time. -/
inductive Op
| add (s : String) (p : Priority) (now : Nat)
| delete (i : Nat)
| startEdit (todo : Todo)
| saveEdit (s : String)
| toggle (i : Nat)
| setFilter (f : FilterVal)

/-- Apply one operation: the input fields are set to the carried values
(the `onChange` handlers) and then the corresponding handler runs; emitted
toasts are discarded. -/
def step (st : TodoState) : Op → TodoState
  | Op.add s p now => (addTodo { st with newTodo := s, newPriority := p } now).1
  | Op.delete i => (deleteTodo st i).1
  | Op.startEdit todo => startEdit st todo
  | Op.saveEdit s => (saveEdit { st with editText := s }).1
  | Op.toggle i => (toggleComplete st i).1
  | Op.setFilter f => setFilter st f

/-- The state reached from the initial state by a sequence of operations. -/
def run (ops : List Op) : TodoState :=
  ops.foldl step initState

/-- Claim C1: when the draft text is non-empty after trimming, `addTodo`
prepends a new task carrying the trimmed text, the selected priority,
`completed = false` and the clock reading as `id` and `createdAt`, leaving
every previous task in place and in order, grows the list by exactly one,
and resets the draft to the empty string and the priority selector to
medium. -/
theorem addTodo_success (st : TodoState) (now : Nat)
    (h : jsTrim st.newTodo ≠ "") :
    (addTodo st now).1.todos =
      { id := now, text := jsTrim st.newTodo, priority := st.newPriority,
        completed := false, createdAt := now } :: st.todos ∧
    (addTodo st now).1.todos.length = st.todos.length + 1 ∧
    (addTodo st now).1.newTodo = "" ∧
    (addTodo st now).1.newPriority = Priority.medium := by
  simp [addTodo, h]

/-- Witness for C1 at a concrete draft and clock reading. -/
theorem addTodo_success_witness :
    (addTodo { initState with
        newTodo := " Buy milk ", newPriority := Priority.high } 7).1.todos =
      [{ id := 7, text := "Buy milk", priority := Priority.high,
         completed := false, createdAt := 7 }] :=
  (addTodo_success
    { initState with newTodo := " Buy milk ", newPriority := Priority.high } 7
    (by decide)).1

/-- Claim C2: when the draft text trims to the empty string, `addTodo`
leaves the whole state exactly as it was and emits the destructive
"Empty Task" toast (the user-visible validation notice). -/
theorem addTodo_empty (st : TodoState) (now : Nat)
    (h : jsTrim st.newTodo = "") :
    (addTodo st now).1 = st ∧
    (addTodo st now).2 =
      [{ title := "Empty Task"
         description := "Please enter a task before adding."
         variant := Variant.destructive }] := by
  simp [addTodo, h]

/-- Witness for C2 at a whitespace-only draft. -/
theorem addTodo_empty_witness :
    (addTodo { initState with newTodo := "   " } 7).1 =
      { initState with newTodo := "   " } :=
  (addTodo_empty { initState with newTodo := "   " } 7 (by decide)).1

/-- Claim C3: when a task id is under edit and the edit draft trims to a
non-empty string, `saveEdit` keeps the list length, and position by
position replaces the text of the tasks whose id is the edited one with
the trimmed draft while keeping their id, priority, completed and
createdAt fields, leaves every task with a different id entirely
unchanged, and clears edit mode (no edited id and an empty edit draft). -/
theorem saveEdit_success (st : TodoState) (e : Nat)
    (h1 : st.editingId = some e) (h2 : jsTrim st.editText ≠ "") :
    (saveEdit st).1.todos.length = st.todos.length ∧
    (∀ (i : Nat) (t t2 : Todo),
       st.todos[i]? = some t → (saveEdit st).1.todos[i]? = some t2 →
       t2.id = t.id ∧ t2.priority = t.priority ∧ t2.completed = t.completed ∧
       t2.createdAt = t.createdAt ∧
       (t.id = e → t2.text = jsTrim st.editText) ∧
       (t.id ≠ e → t2 = t)) ∧
    (saveEdit st).1.editingId = none ∧
    (saveEdit st).1.editText = "" := by
  refine ⟨?_, ?_, ?_, ?_⟩
  · simp [saveEdit, h2]
  · intro i t t2 ht ht2
    simp only [saveEdit, if_neg h2, List.getElem?_map, ht, Option.map_some'] at ht2
    obtain rfl : t2 = _ := (Option.some.injEq _ _).mp ht2.symm
    rw [h1]
    by_cases hid : t.id = e
    · simp [editingMatches, hid]
    · simp [editingMatches, hid]
  · simp [saveEdit, h2]
  · simp [saveEdit, h2]

/-- Witness for C3 on a one-task list under edit. -/
theorem saveEdit_success_witness :
    (saveEdit { initState with
        todos := [{ id := 1, text := "Buy milk", priority := Priority.high,
                    completed := false, createdAt := 1 }]
        editingId := some 1
        editText := " Buy oat milk " }).1.editingId = none :=
  (saveEdit_success
    { initState with
        todos := [{ id := 1, text := "Buy milk", priority := Priority.high,
                    completed := false, createdAt := 1 }]
        editingId := some 1
        editText := " Buy oat milk " } 1 rfl (by decide)).2.2.1

/-- Claim C4: when the edit draft trims to the empty string, `saveEdit`
leaves the whole state exactly as it was, so edit mode stays on the same
id with the invalid draft and the list untouched, and emits the
destructive "Empty Task" toast. -/
theorem saveEdit_empty (st : TodoState) (e : Nat)
    (_h1 : st.editingId = some e) (h2 : jsTrim st.editText = "") :
    (saveEdit st).1 = st ∧
    (saveEdit st).2 =
      [{ title := "Empty Task"
         description := "Task cannot be empty."
         variant := Variant.destructive }] := by
  simp [saveEdit, h2]

/-- Witness for C4 on a one-task list under edit with a blank draft. -/
theorem saveEdit_empty_witness :
    (saveEdit { initState with
        todos := [{ id := 1, text := "Buy milk", priority := Priority.high,
                    completed := false, createdAt := 1 }]
        editingId := some 1
        editText := "  " }).1 =
      { initState with
        todos := [{ id := 1, text := "Buy milk", priority := Priority.high,
                    completed := false, createdAt := 1 }]
        editingId := some 1
        editText := "  " } :=
  (saveEdit_empty
    { initState with
        todos := [{ id := 1, text := "Buy milk", priority := Priority.high,
                    completed := false, createdAt := 1 }]
        editingId := some 1
        editText := "  " } 1 rfl (by decide)).1

/-- A list whose count of elements satisfying `p` is one splits as a left
part with no such element, the one element satisfying `p`, and a right
part with no such element. -/
theorem countP_one_decomp {α : Type} (p : α → Bool) :
    ∀ l : List α, l.countP p = 1 →
      ∃ l1 a l2, l = l1 ++ a :: l2 ∧ p a = true ∧
        l1.countP p = 0 ∧ l2.countP p = 0 := by
  intro l
  induction l with
  | nil => intro h; simp [List.countP_nil] at h
  | cons a l ih =>
    intro h
    by_cases ha : p a
    · refine ⟨[], a, l, rfl, ha, by simp, ?_⟩
      rw [List.countP_cons, if_pos ha] at h
      omega
    · rw [List.countP_cons, if_neg ha] at h
      simp only [Nat.add_zero] at h
      obtain ⟨l1, b, l2, rfl, hb, hc1, hc2⟩ := ih h
      refine ⟨a :: l1, b, l2, rfl, hb, ?_, hc2⟩
      rw [List.countP_cons, if_neg ha]
      omega

/-- Claim C5: `deleteTodo` returns an order-preserving sublist of the old
list in which no task carries the deleted id; when exactly one task
carried that id the list splits around that task and the result is the
two remaining parts, one element shorter; when no task carried the id the
list is returned unchanged; and every toast it emits is a plain success
notification, not an error. -/
theorem deleteTodo_spec (st : TodoState) (i : Nat) :
    List.Sublist (deleteTodo st i).1.todos st.todos ∧
    (∀ t ∈ (deleteTodo st i).1.todos, t.id ≠ i) ∧
    (st.todos.countP (fun t => t.id == i) = 1 →
       ∃ l1 t l2, st.todos = l1 ++ t :: l2 ∧ t.id = i ∧
         (∀ u ∈ l1 ++ l2, u.id ≠ i) ∧
         (deleteTodo st i).1.todos = l1 ++ l2 ∧
         (deleteTodo st i).1.todos.length + 1 = st.todos.length) ∧
    ((∀ t ∈ st.todos, t.id ≠ i) → (deleteTodo st i).1.todos = st.todos) ∧
    (∀ ts ∈ (deleteTodo st i).2, ts.variant = Variant.normal) := by
  simp only [deleteTodo]
  refine ⟨List.filter_sublist st.todos, ?_, ?_, ?_, ?_⟩
  · intro t ht
    have := List.of_mem_filter ht
    simpa using this
  · intro h
    obtain ⟨l1, t, l2, hdec, hp, hc1, hc2⟩ := countP_one_decomp _ st.todos h
    have hti : t.id = i := by simpa using hp
    have hl1 : ∀ u ∈ l1, u.id ≠ i := by
      intro u hu
      have := (List.countP_eq_zero.mp hc1) u hu
      simpa using this
    have hl2 : ∀ u ∈ l2, u.id ≠ i := by
      intro u hu
      have := (List.countP_eq_zero.mp hc2) u hu
      simpa using this
    have hfilter :
        List.filter (fun todo => todo.id != i) (l1 ++ t :: l2) = l1 ++ l2 := by
      rw [List.filter_append, List.filter_cons]
      have hf : (t.id != i) = false := by simp [hti]
      rw [hf]
      simp only [Bool.false_eq_true, if_false]
      rw [List.filter_eq_self.mpr (fun u hu => by simpa using hl1 u hu),
          List.filter_eq_self.mpr (fun u hu => by simpa using hl2 u hu)]
    refine ⟨l1, t, l2, hdec, hti, ?_, ?_, ?_⟩
    · intro u hu
      rcases List.mem_append.mp hu with h1 | h2
      · exact hl1 u h1
      · exact hl2 u h2
    · rw [hdec, hfilter]
    · rw [hdec, hfilter]
      simp [List.length_append]
      omega
  · intro h
    exact List.filter_eq_self.mpr (fun u hu => by simpa using h u hu)
  · intro ts hts
    simp at hts
    rw [hts]

/-- Witness for C5: deleting an id that is absent keeps the list. -/
theorem deleteTodo_spec_witness :
    (deleteTodo { initState with
        todos := [{ id := 1, text := "Buy milk", priority := Priority.high,
                    completed := false, createdAt := 1 }] } 5).1.todos =
      [{ id := 1, text := "Buy milk", priority := Priority.high,
         completed := false, createdAt := 1 }] :=
  (deleteTodo_spec
    { initState with
        todos := [{ id := 1, text := "Buy milk", priority := Priority.high,
                    completed := false, createdAt := 1 }] } 5).2.2.2.1
    (by decide)

/-- Claim C6: for an id present in the list, toggling completion twice
restores the whole state, so in particular every task returns to its
original completed flag and no other field changes. -/
theorem toggleComplete_involution (st : TodoState) (i : Nat)
    (_h : ∃ t ∈ st.todos, t.id = i) :
    (toggleComplete (toggleComplete st i).1 i).1 = st := by
  obtain ⟨todos, a, b, c, d, e⟩ := st
  simp only [toggleComplete, List.map_map]
  congr 1
  apply List.map_id''
  intro t
  obtain ⟨tid, ttext, tpr, tc, tca⟩ := t
  by_cases ht : tid = i
  · simp [Function.comp, ht]
  · simp [Function.comp, ht]

/-- Witness for C6 on a one-task list, toggling its own id twice. -/
theorem toggleComplete_involution_witness :
    (toggleComplete
      (toggleComplete { initState with
          todos := [{ id := 1, text := "Buy milk", priority := Priority.high,
                      completed := false, createdAt := 1 }] } 1).1 1).1 =
      { initState with
        todos := [{ id := 1, text := "Buy milk", priority := Priority.high,
                    completed := false, createdAt := 1 }] } :=
  toggleComplete_involution
    { initState with
        todos := [{ id := 1, text := "Buy milk", priority := Priority.high,
                    completed := false, createdAt := 1 }] } 1
    ⟨{ id := 1, text := "Buy milk", priority := Priority.high,
       completed := false, createdAt := 1 }, by decide, rfl⟩

/-- Claim C7: the view projection with the `all` filter is the list
itself; with a priority filter it equals the filtering of the list by
that priority, an order-preserving sublist of the list (the projection is
a pure function, so the underlying list is never changed). -/
theorem filteredTodos_spec (l : List Todo) (p : Priority) :
    filteredTodos l FilterVal.all = l ∧
    filteredTodos l (filterOfPriority p) =
      l.filter (fun t => decide (t.priority = p)) ∧
    List.Sublist (filteredTodos l (filterOfPriority p)) l := by
  refine ⟨by simp [filteredTodos], ?_, ?_⟩
  · cases p <;>
      (simp only [filteredTodos, filterOfPriority]
       refine List.filter_congr ?_
       intro t _
       obtain ⟨_, _, pr, _, _⟩ := t
       cases pr <;> rfl)
  · simp only [filteredTodos]
    exact List.filter_sublist l

/-- Claim C8 fails on the code: two adds sharing one clock reading (two
creations inside the same millisecond of `Date.now()`) produce two tasks
with the same id, so the reachable state after that trace does not have
pairwise distinct ids. -/
theorem run_duplicate_ids :
    ((run [Op.add "a" Priority.high 5,
           Op.add "b" Priority.high 5]).todos.map Todo.id) = [5, 5] ∧
    ¬ ((run [Op.add "a" Priority.high 5,
             Op.add "b" Priority.high 5]).todos.map Todo.id).Nodup := by
  exact ⟨by decide, by decide⟩

/-- Claim C9: toggling an id that no task in the list carries returns the
state unchanged and emits no toast. -/
theorem toggleComplete_absent (st : TodoState) (i : Nat)
    (h : ∀ t ∈ st.todos, t.id ≠ i) :
    toggleComplete st i = (st, []) := by
  obtain ⟨todos, a, b, c, d, e⟩ := st
  simp only [toggleComplete]
  have hm : todos.map (fun todo =>
      if todo.id == i then { todo with completed := !todo.completed }
      else todo) = todos := by
    conv_rhs => rw [← List.map_id' todos]
    apply List.map_congr_left
    intro t ht
    simp [h t ht]
  rw [hm]

/-- Witness for C9: toggling an absent id on a one-task list. -/
theorem toggleComplete_absent_witness :
    toggleComplete { initState with
        todos := [{ id := 1, text := "Buy milk", priority := Priority.high,
                    completed := false, createdAt := 1 }] } 99 =
      ({ initState with
         todos := [{ id := 1, text := "Buy milk", priority := Priority.high,
                     completed := false, createdAt := 1 }] }, []) :=
  toggleComplete_absent
    { initState with
        todos := [{ id := 1, text := "Buy milk", priority := Priority.high,
                    completed := false, createdAt := 1 }] } 99 (by decide)

/-- Claim C10: when no task is under edit and the edit draft trims to a
non-empty string, `saveEdit` leaves every task unchanged (the null edited
id matches no task), still clears the edit draft to the empty string,
keeps the edited id none, and emits the success toast. -/
theorem saveEdit_noEditing (st : TodoState)
    (h1 : st.editingId = none) (h2 : jsTrim st.editText ≠ "") :
    (saveEdit st).1.todos = st.todos ∧
    (saveEdit st).1.editingId = none ∧
    (saveEdit st).1.editText = "" ∧
    (saveEdit st).2 =
      [{ title := "Task Updated"
         description := "Your task has been updated successfully!"
         variant := Variant.normal }] := by
  refine ⟨?_, by simp [saveEdit, h2], by simp [saveEdit, h2],
          by simp [saveEdit, h2]⟩
  simp only [saveEdit, if_neg h2]
  rw [h1]
  simp [editingMatches]

/-- Witness for C10 on a one-task list with no task under edit. -/
theorem saveEdit_noEditing_witness :
    (saveEdit { initState with
        todos := [{ id := 1, text := "Buy milk", priority := Priority.high,
                    completed := false, createdAt := 1 }]
        editText := "x" }).1.todos =
      [{ id := 1, text := "Buy milk", priority := Priority.high,
         completed := false, createdAt := 1 }] :=
  (saveEdit_noEditing
    { initState with
        todos := [{ id := 1, text := "Buy milk", priority := Priority.high,
                    completed := false, createdAt := 1 }]
        editText := "x" } rfl (by decide)).1

end TodoApp
